import Mathlib

/-!
Shallow embedding of the PNP roster application (`src/app.py`, `src/admin_tools.py`).

The stateful Python code is modelled with explicit state passing:
* the PostgreSQL / JSON-file roster becomes a list of `Member` records plus an
  append-only audit log (`AppDb`);
* the module-level avatar cache dictionary becomes an association list keyed by
  the lower-cased username (`AvatarCache`), with `time.time()` passed in as an
  explicit `now : Nat`;
* the two external Roblox HTTP lookups become an explicit environment
  (`FetchEnv`); `get_roblox_avatar` additionally reports how many times it
  consulted the external username endpoint, so that "the fetch was (not)
  invoked again" is expressible;
* `change_rank_db` additionally reports how many SQL `UPDATE` statements it
  executed, so that "no persistence write occurs" is expressible.

Python dictionaries (`_avatar_cache`, `player_ranks`) are modelled as
association lists with dictionary update semantics (`dictSet` replaces in
place, otherwise appends), and `str.lower` / `str.strip` as the character-wise
`strLower` / `strStrip`.
-/

/-- Character-wise model of Python's `str.lower()`. -/
def strLower (s : String) : String := ⟨s.data.map Char.toLower⟩

/-- Character-wise model of Python's `str.strip()` (drop surrounding whitespace). -/
def strStrip (s : String) : String :=
  ⟨((s.data.dropWhile Char.isWhitespace).reverse.dropWhile Char.isWhitespace).reverse⟩

/-- Python `dict.get`: the value stored at key `k`, if any. -/
def dictGet {β : Type} (l : List (String × β)) (k : String) : Option β :=
  (l.find? (fun p => p.1 == k)).map (fun p => p.2)

/-- Python `dict[k] = v`: replace the entry for `k` in place if present,
otherwise append a new entry. -/
def dictSet {β : Type} (l : List (String × β)) (k : String) (v : β) : List (String × β) :=
  if l.any (fun p => p.1 == k) then
    l.map (fun p => if p.1 == k then (k, v) else p)
  else
    l ++ [(k, v)]

/-- Python `list.index` (total version; callers guard membership first). -/
def list_index (l : List String) (x : String) : Nat := l.findIdx (fun y => y == x)

/-- `PNP_RANKS` from `src/app.py` (lowest -> highest). -/
def PNP_RANKS : List String := [
  "Patrolman/Patrolwoman",
  "Police Corporal",
  "Police Staff Sergeant",
  "Police Master Sergeant",
  "Police Senior Master Sergeant",
  "Police Chief Master Sergeant",
  "Police Executive Master Sergeant",
  "Police Lieutenant",
  "Police Captain",
  "Police Major",
  "Police Lieutenant Colonel",
  "Police Colonel",
  "Police Brigadier General",
  "Police Major General",
  "Police Lieutenant General",
  "Police General"
]

theorem PNP_RANKS_length : PNP_RANKS.length = 16 := rfl

/-- The clamped stepping rule at the heart of `change_rank_db` /
`change_member_rank`: `max(0, min(len(PNP_RANKS)-1, index + delta))`. -/
def rankStep (delta i : Int) : Int :=
  max 0 (min ((PNP_RANKS.length : Int) - 1) (i + delta))

/-- A row of the `members` table / an element of the `members` JSON list. -/
structure Member where
  id : Nat
  username : String
  rank_index : Int
  created_at : Nat
deriving DecidableEq

/-- The persistent state touched by the roster operations: the `members`
table and the append-only `logs` table (admin, action, details). -/
structure AppDb where
  members : List Member
  logs : List (String × String × String)
deriving DecidableEq

/-- `log_action_db` from `src/app.py`: append an audit entry. -/
def log_action_db (db : AppDb) (admin action details : String) : AppDb :=
  { db with logs := db.logs ++ [(admin, action, details)] }

/-- `change_rank_db` from `src/app.py`: look up the member, clamp-step its
rank index, and (whenever the member exists) execute an `UPDATE`.  Returns the
new state, the Python return value, and the number of `UPDATE` statements
executed. -/
def change_rank_db (db : AppDb) (member_id : Nat) (delta : Int) :
    AppDb × Bool × Nat :=
  match db.members.find? (fun m => m.id == member_id) with
  | none => (db, false, 0)
  | some m =>
    ({ db with
        members := db.members.map
          (fun x => if x.id == member_id
            then { x with rank_index := rankStep delta m.rank_index } else x) },
      true, 1)

/-- The `/promote/<member_id>` route from `src/app.py`: `change_rank_db` with
delta `+1`, then an audit entry whenever the member existed.  The second
component is the number of `UPDATE` statements executed. -/
def promote_member (db : AppDb) (admin : String) (member_id : Nat) : AppDb × Nat :=
  let r := change_rank_db db member_id 1
  if r.2.1 then (log_action_db r.1 admin "promote" ("id:" ++ toString member_id), r.2.2)
  else (r.1, r.2.2)

/-- The `/demote/<member_id>` route from `src/app.py`: `change_rank_db` with
delta `-1`, then an audit entry whenever the member existed. -/
def demote_member (db : AppDb) (admin : String) (member_id : Nat) : AppDb × Nat :=
  let r := change_rank_db db member_id (-1)
  if r.2.1 then (log_action_db r.1 admin "demote" ("id:" ++ toString member_id), r.2.2)
  else (r.1, r.2.2)

/-- Surrogate for the `SERIAL` id column: one more than the largest id in use. -/
def nextId (db : AppDb) : Nat := (db.members.map Member.id).foldl max 0 + 1

/-- Every return statement of the `/add` route is `redirect(url_for("index"))`,
so the route's response carries a single possible value. -/
inductive RouteResp where
  | redirectIndex
deriving DecidableEq

/-- `PNP_RANKS[i]` for an index already clamped into range. -/
def rank_name (i : Int) : String := PNP_RANKS.getD i.toNat "Unknown"

/-- The `/add` route from `src/app.py` (lines 487-504): strip the username,
reject the empty username, reject a case-insensitive duplicate, otherwise
insert the member with the rank index clamped into range and log the action.
All paths return the same redirect. -/
def add_member (db : AppDb) (admin usernameForm : String) (rank_index : Int)
    (now : Nat) : AppDb × RouteResp :=
  if strStrip usernameForm = "" then (db, RouteResp.redirectIndex)
  else if db.members.any
      (fun m => strLower m.username == strLower (strStrip usernameForm)) then
    (db, RouteResp.redirectIndex)
  else
    (log_action_db
      { db with members := db.members ++
          [⟨nextId db, strStrip usernameForm,
            max 0 (min rank_index ((PNP_RANKS.length : Int) - 1)), now⟩] }
      admin "add"
      (strStrip usernameForm ++ " -> " ++
        rank_name (max 0 (min rank_index ((PNP_RANKS.length : Int) - 1)))),
      RouteResp.redirectIndex)

/-- The file-backend `add_member` from `src/app.py` (lines 718-726): reject a
case-insensitive duplicate by returning early (the function returns `None` on
both paths), otherwise append a member with id `max + 1` and the unclamped
rank index. -/
def add_member_file (members : List Member) (username : String) (rank_index : Int)
    (now : Nat) : List Member :=
  if members.any (fun m => strLower m.username == strLower username) then members
  else
    members ++ [⟨(members.map Member.id).foldl max 0 + 1, username, rank_index, now⟩]

/-- The file-backend `change_member_rank` from `src/app.py` (lines 736-745):
find the member by id, clamp-step its rank with the same `rankStep` rule, and
report whether a member was found. -/
def change_member_rank (members : List Member) (member_id : Nat) (delta : Int) :
    List Member × Bool :=
  match members.find? (fun m => m.id == member_id) with
  | none => (members, false)
  | some _ =>
    (members.map
      (fun m => if m.id == member_id then { m with rank_index := rankStep delta m.rank_index } else m),
      true)

/-- `AVATAR_TTL` from `src/app.py` (default `60 * 60` seconds). -/
def AVATAR_TTL : Nat := 60 * 60

/-- One entry of `_avatar_cache`: `{"url": ..., "expiry": ...}`, where the
stored url is `None` exactly when the external lookup failed. -/
structure AvatarEntry where
  url : Option String
  expiry : Nat
deriving DecidableEq

/-- The module-level `_avatar_cache` dictionary, keyed by lower-cased username. -/
abbrev AvatarCache : Type := List (String × AvatarEntry)

/-- `avatar_get_cached` from `src/app.py`: `None` for the empty username;
otherwise the stored `url` field if an entry for the lower-cased key exists
with `expiry > now`, and `None` otherwise.  Note that a cached absent marker
(`url = None`) produces the same return value as a miss. -/
def avatar_get_cached (cache : AvatarCache) (now : Nat) (username : String) :
    Option String :=
  if username = "" then none
  else
    match dictGet cache (strLower username) with
    | some e => if now < e.expiry then e.url else none
    | none => none

/-- `avatar_set_cached` from `src/app.py`: store the value under the
lower-cased key with expiry `now + AVATAR_TTL`, overwriting any prior entry. -/
def avatar_set_cached (cache : AvatarCache) (now : Nat) (username : String)
    (url : Option String) : AvatarCache :=
  dictSet cache (strLower username) ⟨url, now + AVATAR_TTL⟩

/-- One pass of `_avatar_cleaner_loop` from `src/app.py`: delete every entry
with `expiry <= now`. -/
def avatar_sweep (cache : AvatarCache) (now : Nat) : AvatarCache :=
  cache.filter (fun kv => decide (now < kv.2.expiry))

/-- The two external Roblox lookups, supplied as an environment: resolving a
username to a numeric id, and resolving an id to a thumbnail url.  A `none`
result stands for any failure (network error, timeout, missing field). -/
structure FetchEnv where
  userid : String → Option Nat
  thumb : Nat → Option String

/-- `get_roblox_userid` from `src/app.py` (failures collapsed into the
environment). -/
def get_roblox_userid (env : FetchEnv) (username : String) : Option Nat :=
  if username = "" then none else env.userid username

/-- `get_roblox_avatar` from `src/app.py`: return a cached value when
`avatar_get_cached` yields non-`None`; otherwise consult the external
endpoints and cache the outcome (the absent marker `None` on any failure,
including a falsy user id or a falsy image url).  The last component counts
how many times the external username endpoint was consulted. -/
def get_roblox_avatar (env : FetchEnv) (cache : AvatarCache) (now : Nat)
    (username : String) : Option String × AvatarCache × Nat :=
  if username = "" then (none, cache, 0)
  else
    match avatar_get_cached cache now username with
    | some cached => (some cached, cache, 0)
    | none =>
      match get_roblox_userid env username with
      | none => (none, avatar_set_cached cache now username none, 1)
      | some uid =>
        if uid = 0 then (none, avatar_set_cached cache now username none, 1)
        else
          match env.thumb uid with
          | some img =>
            if img = "" then (none, avatar_set_cached cache now username none, 1)
            else (some img, avatar_set_cached cache now username (some img), 1)
          | none => (none, avatar_set_cached cache now username none, 1)

/-- `PNCO_RANKS` from `src/admin_tools.py`. -/
def PNCO_RANKS : List String := [
  "Patrolman/Patrolwoman",
  "Police Corporal",
  "Police Staff Sergeant",
  "Police Master Sergeant",
  "Police Senior Master Sergeant",
  "Police Chief Master Sergeant",
  "Police Executive Master Sergeant"
]

/-- `PCO_RANKS` from `src/admin_tools.py`. -/
def PCO_RANKS : List String := [
  "Police Lieutenant",
  "Police Captain",
  "Police Major",
  "Police Lieutenant Colonel",
  "Police Colonel",
  "Police Brigadier General",
  "Police Major General",
  "Police Lieutenant General",
  "Police General"
]

/-- The module-level `player_ranks` dictionary of `src/admin_tools.py`. -/
abbrev PlayerRanks : Type := List (String × String)

/-- `get_rank_for_user` from `src/admin_tools.py`. -/
def get_rank_for_user (pr : PlayerRanks) (username : String) : String :=
  (dictGet pr username).getD "No Rank Assigned"

/-- `set_rank_for_user` from `src/admin_tools.py`; `none` models the raised
`ValueError` on an invalid rank. -/
def set_rank_for_user (pr : PlayerRanks) (username rank : String) :
    Option PlayerRanks :=
  if PNCO_RANKS.contains rank || PCO_RANKS.contains rank then
    some (dictSet pr username rank)
  else none

/-- `promote_user` from `src/admin_tools.py`: step one rank up inside the
user's own sub-ladder; at the top of either sub-ladder (or with an unknown
rank) fall through to "Already at highest rank.". -/
def promote_user (pr : PlayerRanks) (username : String) : PlayerRanks × String :=
  match dictGet pr username with
  | none => (pr, "User has no rank assigned.")
  | some current_rank =>
    if current_rank = "" then (pr, "User has no rank assigned.")
    else if PNCO_RANKS.contains current_rank then
      let idx := list_index PNCO_RANKS current_rank
      if idx < PNCO_RANKS.length - 1 then
        (dictSet pr username (PNCO_RANKS.getD (idx + 1) ""),
          "User promoted to " ++ PNCO_RANKS.getD (idx + 1) "")
      else (pr, "Already at highest rank.")
    else if PCO_RANKS.contains current_rank then
      let idx := list_index PCO_RANKS current_rank
      if idx < PCO_RANKS.length - 1 then
        (dictSet pr username (PCO_RANKS.getD (idx + 1) ""),
          "User promoted to " ++ PCO_RANKS.getD (idx + 1) "")
      else (pr, "Already at highest rank.")
    else (pr, "Already at highest rank.")

/-- `demote_user` from `src/admin_tools.py`: step one rank down inside the
user's own sub-ladder; at the bottom of either sub-ladder (or with an unknown
rank) fall through to "Already at lowest rank.". -/
def demote_user (pr : PlayerRanks) (username : String) : PlayerRanks × String :=
  match dictGet pr username with
  | none => (pr, "User has no rank assigned.")
  | some current_rank =>
    if current_rank = "" then (pr, "User has no rank assigned.")
    else if PNCO_RANKS.contains current_rank then
      let idx := list_index PNCO_RANKS current_rank
      if 0 < idx then
        (dictSet pr username (PNCO_RANKS.getD (idx - 1) ""),
          "User demoted to " ++ PNCO_RANKS.getD (idx - 1) "")
      else (pr, "Already at lowest rank.")
    else if PCO_RANKS.contains current_rank then
      let idx := list_index PCO_RANKS current_rank
      if 0 < idx then
        (dictSet pr username (PCO_RANKS.getD (idx - 1) ""),
          "User demoted to " ++ PCO_RANKS.getD (idx - 1) "")
      else (pr, "Already at lowest rank.")
    else (pr, "Already at lowest rank.")

/-! ## Helper lemmas about the dictionary model and the stepping rule -/

theorem find?_replace_of_mem {β : Type} (k : String) (v : β) (l : List (String × β))
    (h : ∃ p ∈ l, p.1 == k) :
    (l.map (fun p => if p.1 == k then (k, v) else p)).find? (fun p => p.1 == k) = some (k, v) := by
  induction l with
  | nil => simp at h
  | cons q l ih =>
    by_cases hq : q.1 == k
    · simp only [List.map_cons, if_pos hq]
      exact List.find?_cons_of_pos _ (by simp)
    · simp only [List.map_cons, if_neg hq]
      rw [List.find?_cons_of_neg _ (by simpa using hq)]
      apply ih
      rcases h with ⟨p, hp, hpk⟩
      rcases List.mem_cons.mp hp with rfl | h'
      · exact absurd hpk hq
      · exact ⟨p, h', hpk⟩

theorem find?_append_single {β : Type} (k : String) (v : β) (l : List (String × β))
    (h : ∀ p ∈ l, ¬(p.1 == k)) :
    (l ++ [(k, v)]).find? (fun p => p.1 == k) = some (k, v) := by
  induction l with
  | nil => simp [List.find?]
  | cons q l ih =>
    rw [List.cons_append, List.find?_cons_of_neg _ (by simpa using h q (List.mem_cons_self q l))]
    exact ih (fun p hp => h p (List.mem_cons_of_mem q hp))

theorem dictGet_dictSet_self {β : Type} (l : List (String × β)) (k : String) (v : β) :
    dictGet (dictSet l k v) k = some v := by
  unfold dictGet dictSet
  by_cases h : l.any (fun p => p.1 == k)
  · rw [if_pos h, find?_replace_of_mem k v l (List.any_eq_true.mp h)]
    rfl
  · rw [if_neg h, find?_append_single k v l
      (fun p hp hpk => h (List.any_eq_true.mpr ⟨p, hp, hpk⟩))]
    rfl

theorem rankStep_one_iter (k : Nat) : (rankStep 1)^[k] 0 = min (k : Int) 15 := by
  induction k with
  | zero => simp
  | succ n ih =>
    rw [Function.iterate_succ_apply', ih]
    simp only [rankStep, PNP_RANKS_length]
    push_cast
    omega

theorem rankStep_negone_iter (k : Nat) : (rankStep (-1))^[k] 15 = max 0 (15 - (k : Int)) := by
  induction k with
  | zero => simp
  | succ n ih =>
    rw [Function.iterate_succ_apply', ih]
    simp only [rankStep, PNP_RANKS_length]
    push_cast
    omega

/-! ## Claim theorems -/

/-- C1: on the 16-rank ladder `PNP_RANKS`, iterating the promote step
(`change_rank_db` with delta `+1`, i.e. `rankStep 1`) from index 0 increases
the index by exactly one per step, reaches 15 after exactly 15 steps, and
stays at 15 under further promotes; symmetrically, iterating the demote step
(`rankStep (-1)`) from 15 reaches 0 after exactly 15 steps and stays there. -/
theorem C1_promote_demote_ladder :
    PNP_RANKS.length = 16 ∧
    (∀ k : Nat, k < 15 → (rankStep 1)^[k + 1] 0 = (rankStep 1)^[k] 0 + 1) ∧
    (rankStep 1)^[15] 0 = 15 ∧
    (∀ k : Nat, 15 ≤ k → (rankStep 1)^[k] 0 = 15) ∧
    (∀ k : Nat, k < 15 → (rankStep (-1))^[k + 1] 15 = (rankStep (-1))^[k] 15 - 1) ∧
    (rankStep (-1))^[15] 15 = 0 ∧
    (∀ k : Nat, 15 ≤ k → (rankStep (-1))^[k] 15 = 0) := by
  refine ⟨rfl, ?_, ?_, ?_, ?_, ?_, ?_⟩
  · intro k hk
    rw [rankStep_one_iter, rankStep_one_iter]
    push_cast
    omega
  · rw [rankStep_one_iter]; norm_num
  · intro k hk
    rw [rankStep_one_iter]
    omega
  · intro k hk
    rw [rankStep_negone_iter, rankStep_negone_iter]
    push_cast
    omega
  · rw [rankStep_negone_iter]; norm_num
  · intro k hk
    rw [rankStep_negone_iter]
    omega

/-- Witness for C1 at concrete step counts. -/
theorem C1_promote_demote_ladder_witness :
    (rankStep 1)^[0 + 1] 0 = (rankStep 1)^[0] 0 + 1 ∧
    (rankStep 1)^[20] 0 = 15 ∧
    (rankStep (-1))^[20] 15 = 0 :=
  ⟨C1_promote_demote_ladder.2.1 0 (by norm_num),
   C1_promote_demote_ladder.2.2.2.1 20 (by norm_num),
   C1_promote_demote_ladder.2.2.2.2.2.2 20 (by norm_num)⟩

/-- C4 counterexample: the claim orients the transitions as promote = index−1
and demote = index+1, but the code's promote (`change_rank_db` with `+1`) maps
1 to 2, not to 0, and its demote maps 1 to 0, not to 2; the promote route on a
member at rank index 1 stores index 2. -/
theorem C4_counterexample :
    rankStep 1 1 = 2 ∧ ¬(rankStep 1 1 = 1 - 1) ∧
    rankStep (-1) 1 = 0 ∧ ¬(rankStep (-1) 1 = 1 + 1) ∧
    (promote_member ⟨[⟨1, "Alice", 1, 0⟩], []⟩ "admin" 1).1.members.map Member.rank_index = [2] := by
  decide

/-- C4 amended: in the single-member rank state machine over `[0, 15]`, the
promote transition (`rankStep 1`) maps `i` to `i + 1` with ceiling 15, the
demote transition (`rankStep (-1)`) maps `i` to `i - 1` with floor 0, and both
boundary states are reflective: a blocked step stays put rather than erroring. -/
theorem C4_state_machine :
    (∀ i : Int, 0 ≤ i → i < 15 → rankStep 1 i = i + 1) ∧
    rankStep 1 15 = 15 ∧
    (∀ i : Int, 0 < i → i ≤ 15 → rankStep (-1) i = i - 1) ∧
    rankStep (-1) 0 = 0 := by
  refine ⟨?_, by decide, ?_, by decide⟩
  · intro i h1 h2
    simp only [rankStep, PNP_RANKS_length]
    omega
  · intro i h1 h2
    simp only [rankStep, PNP_RANKS_length]
    omega

/-- Witness for C4 amended at index 3. -/
theorem C4_state_machine_witness : rankStep 1 3 = 3 + 1 ∧ rankStep (-1) 3 = 3 - 1 :=
  ⟨C4_state_machine.1 3 (by norm_num) (by norm_num),
   C4_state_machine.2.2.1 3 (by norm_num) (by norm_num)⟩

/-- C9: the clamped rank step is its own approximate inverse: promote then
demote (and demote then promote) restore any interior index; from the top
boundary, demote then promote restores 15; from the bottom boundary, promote
then demote restores 0. -/
theorem C9_step_inverse :
    (∀ i : Int, 0 < i → i < 15 →
      rankStep (-1) (rankStep 1 i) = i ∧ rankStep 1 (rankStep (-1) i) = i) ∧
    rankStep 1 (rankStep (-1) 15) = 15 ∧
    rankStep (-1) (rankStep 1 0) = 0 := by
  refine ⟨?_, by decide, by decide⟩
  intro i h1 h2
  constructor <;> simp only [rankStep, PNP_RANKS_length] <;> omega

/-- Witness for C9 at the interior index 5. -/
theorem C9_step_inverse_witness :
    rankStep (-1) (rankStep 1 5) = 5 ∧ rankStep 1 (rankStep (-1) 5) = 5 :=
  C9_step_inverse.1 5 (by norm_num) (by norm_num)

theorem map_id_of_eq {α : Type} :
    ∀ (l : List α) (f : α → α), (∀ x ∈ l, f x = x) → l.map f = l
  | [], _, _ => rfl
  | a :: l, f, h => by
    rw [List.map_cons, h a (List.mem_cons_self a l),
      map_id_of_eq l f (fun x hx => h x (List.mem_cons_of_mem a hx))]

theorem change_rank_db_fixed (db : AppDb) (member_id : Nat) (delta : Int) (m : Member)
    (hu : ∀ x ∈ db.members, x.id = m.id → x = m)
    (hfind : db.members.find? (fun x => x.id == member_id) = some m)
    (hfix : rankStep delta m.rank_index = m.rank_index) :
    change_rank_db db member_id delta = (db, true, 1) := by
  have hmid : m.id = member_id := by simpa using List.find?_some hfind
  unfold change_rank_db
  rw [hfind]
  have hmap : db.members.map
      (fun x => if x.id == member_id then { x with rank_index := rankStep delta m.rank_index } else x) =
      db.members := by
    apply map_id_of_eq
    intro x hx
    by_cases hid : x.id == member_id
    · have hxm : x = m := hu x hx (by simpa [hmid] using hid)
      rw [if_pos hid, hxm, hfix]
    · rw [if_neg hid]
  simp only [hmap]

/-- C2 counterexample: for a member already at the top rank index 15, the
promote operation is not the no-op the claim describes: `change_rank_db` still
executes one `UPDATE` (a persistence write of the unchanged index), it returns
`True` exactly as for a successful change, and the `/promote` route records an
audit entry; symmetrically for demote at index 0. -/
theorem C2_counterexample :
    (change_rank_db ⟨[⟨1, "Alice", 15, 0⟩], []⟩ 1 1).2.2 = 1 ∧
    (change_rank_db ⟨[⟨1, "Alice", 15, 0⟩], []⟩ 1 1).2.1 = true ∧
    (promote_member ⟨[⟨1, "Alice", 15, 0⟩], []⟩ "admin" 1).1.members = [⟨1, "Alice", 15, 0⟩] ∧
    (promote_member ⟨[⟨1, "Alice", 15, 0⟩], []⟩ "admin" 1).1.logs =
      [("admin", "promote", "id:1")] ∧
    (demote_member ⟨[⟨1, "Alice", 0, 0⟩], []⟩ "admin" 1).1.logs =
      [("admin", "demote", "id:1")] := by
  decide

/-- C2 amended: for an existing member at the relevant bound (15 for promote,
0 for demote, with ids unique), the stored rank index is unchanged and no
error occurs, but the operation still executes one `UPDATE` writing the
unchanged index, still returns `True` to its caller exactly as for an actual
change, and the route still records an audit entry. -/
theorem C2_boundary_behavior :
    (∀ (db : AppDb) (admin : String) (member_id : Nat) (m : Member),
      (∀ x ∈ db.members, x.id = m.id → x = m) →
      db.members.find? (fun x => x.id == member_id) = some m →
      m.rank_index = 15 →
      (promote_member db admin member_id).1.members = db.members ∧
      (promote_member db admin member_id).1.logs =
        db.logs ++ [(admin, "promote", "id:" ++ toString member_id)] ∧
      (promote_member db admin member_id).2 = 1 ∧
      (change_rank_db db member_id 1).2.1 = true) ∧
    (∀ (db : AppDb) (admin : String) (member_id : Nat) (m : Member),
      (∀ x ∈ db.members, x.id = m.id → x = m) →
      db.members.find? (fun x => x.id == member_id) = some m →
      m.rank_index = 0 →
      (demote_member db admin member_id).1.members = db.members ∧
      (demote_member db admin member_id).1.logs =
        db.logs ++ [(admin, "demote", "id:" ++ toString member_id)] ∧
      (demote_member db admin member_id).2 = 1 ∧
      (change_rank_db db member_id (-1)).2.1 = true) := by
  constructor
  · intro db admin member_id m hu hfind hri
    have hc := change_rank_db_fixed db member_id 1 m hu hfind (by rw [hri]; decide)
    unfold promote_member
    rw [hc]
    exact ⟨rfl, rfl, rfl, rfl⟩
  · intro db admin member_id m hu hfind hri
    have hc := change_rank_db_fixed db member_id (-1) m hu hfind (by rw [hri]; decide)
    unfold demote_member
    rw [hc]
    exact ⟨rfl, rfl, rfl, rfl⟩

/-- Witness for C2 amended on a one-member roster at the top rank. -/
theorem C2_boundary_behavior_witness :
    (promote_member ⟨[⟨1, "Bob", 15, 0⟩], []⟩ "chief" 1).1.members = [⟨1, "Bob", 15, 0⟩] ∧
    (promote_member ⟨[⟨1, "Bob", 15, 0⟩], []⟩ "chief" 1).1.logs =
      [] ++ [("chief", "promote", "id:" ++ toString 1)] ∧
    (promote_member ⟨[⟨1, "Bob", 15, 0⟩], []⟩ "chief" 1).2 = 1 ∧
    (change_rank_db ⟨[⟨1, "Bob", 15, 0⟩], []⟩ 1 1).2.1 = true :=
  C2_boundary_behavior.1 ⟨[⟨1, "Bob", 15, 0⟩], []⟩ "chief" 1 ⟨1, "Bob", 15, 0⟩
    (by decide) (by decide) (by decide)

/-- C5: every rank index persisted by a roster mutation stays in `[0, 15]`:
the `/add` route clamps the requested index into range before inserting, and
`change_rank_db` clamps the stepped index, so `0 ≤ rank_index < 16` is
preserved by both operations. -/
theorem C5_rank_index_invariant :
    (∀ (db : AppDb) (admin usernameForm : String) (rank_index : Int) (now : Nat),
      (∀ m ∈ db.members, 0 ≤ m.rank_index ∧ m.rank_index < 16) →
      ∀ m ∈ (add_member db admin usernameForm rank_index now).1.members,
        0 ≤ m.rank_index ∧ m.rank_index < 16) ∧
    (∀ (db : AppDb) (member_id : Nat) (delta : Int),
      (∀ m ∈ db.members, 0 ≤ m.rank_index ∧ m.rank_index < 16) →
      ∀ m ∈ (change_rank_db db member_id delta).1.members,
        0 ≤ m.rank_index ∧ m.rank_index < 16) := by
  constructor
  · intro db admin usernameForm rank_index now hinv m hm
    unfold add_member at hm
    split at hm
    · exact hinv m hm
    · split at hm
      · exact hinv m hm
      · simp only [log_action_db, List.mem_append, List.mem_singleton] at hm
        rcases hm with hm | rfl
        · exact hinv m hm
        · simp only [PNP_RANKS_length]
          constructor
          · omega
          · omega
  · intro db member_id delta hinv m hm
    unfold change_rank_db at hm
    split at hm
    · exact hinv m hm
    · simp only [List.mem_map] at hm
      obtain ⟨y, hy, rfl⟩ := hm
      by_cases hid : y.id == member_id
      · simp only [if_pos hid, rankStep, PNP_RANKS_length]
        constructor
        · omega
        · omega
      · simp only [if_neg hid]
        exact hinv y hy

/-- Witness for C5: an out-of-range requested index 99 is clamped to 15. -/
theorem C5_rank_index_invariant_witness :
    0 ≤ (⟨1, "Bob", 15, 7⟩ : Member).rank_index ∧
    (⟨1, "Bob", 15, 7⟩ : Member).rank_index < 16 :=
  C5_rank_index_invariant.1 ⟨[], []⟩ "admin" "Bob" 99 7 (by decide)
    ⟨1, "Bob", 15, 7⟩ (by decide)

/-- C8 counterexample: adding "ALICE" to a roster holding "Alice" is indeed a
no-op on the roster, but it is not signaled to the caller: the `/add` route's
response on the rejected duplicate is identical to its response on a
successful add (always the same redirect), and the file-backend `add_member`
returns the same `None` either way, so no rejection signal reaches the caller. -/
theorem C8_counterexample :
    (add_member ⟨[⟨1, "Alice", 0, 0⟩], []⟩ "admin" "ALICE" 3 5).1 =
      ⟨[⟨1, "Alice", 0, 0⟩], []⟩ ∧
    (add_member ⟨[⟨1, "Alice", 0, 0⟩], []⟩ "admin" "ALICE" 3 5).2 =
      (add_member ⟨[], []⟩ "admin" "Bob" 3 5).2 ∧
    add_member_file [⟨1, "Alice", 0, 0⟩] "ALICE" 3 5 = [⟨1, "Alice", 0, 0⟩] := by
  decide

/-- C8 amended: adding a username equal, after lower-casing, to an existing
member's username is a no-op — no member is created and the roster state is
unchanged, even when the two differ only in letter case — but the rejection is
not signaled to the caller: the route returns the same redirect as a
successful add, and the file-backend variant returns nothing in both cases. -/
theorem C8_duplicate_add_noop :
    (∀ (db : AppDb) (admin u2 : String) (rank_index : Int) (now : Nat) (m : Member),
      m ∈ db.members → strLower m.username = strLower (strStrip u2) →
      (add_member db admin u2 rank_index now).1 = db ∧
      (add_member db admin u2 rank_index now).2 = RouteResp.redirectIndex) ∧
    (∀ (members : List Member) (u2 : String) (rank_index : Int) (now : Nat) (m : Member),
      m ∈ members → strLower m.username = strLower u2 →
      add_member_file members u2 rank_index now = members) := by
  constructor
  · intro db admin u2 rank_index now m hm hcase
    have hb : (strLower m.username == strLower (strStrip u2)) = true :=
      beq_iff_eq.mpr hcase
    have hany : (db.members.any
        (fun x => strLower x.username == strLower (strStrip u2))) = true :=
      List.any_eq_true.mpr ⟨m, hm, hb⟩
    unfold add_member
    by_cases h0 : strStrip u2 = ""
    · rw [if_pos h0]
      exact ⟨rfl, rfl⟩
    · rw [if_neg h0, if_pos hany]
      exact ⟨rfl, rfl⟩
  · intro members u2 rank_index now m hm hcase
    have hb : (strLower m.username == strLower u2) = true := beq_iff_eq.mpr hcase
    have hany : (members.any (fun x => strLower x.username == strLower u2)) = true :=
      List.any_eq_true.mpr ⟨m, hm, hb⟩
    unfold add_member_file
    rw [if_pos hany]

/-- Witness for C8 amended: "alice" versus the existing "Alice". -/
theorem C8_duplicate_add_noop_witness :
    (add_member ⟨[⟨1, "Alice", 0, 0⟩], []⟩ "admin" "alice" 3 5).1 =
      ⟨[⟨1, "Alice", 0, 0⟩], []⟩ ∧
    (add_member ⟨[⟨1, "Alice", 0, 0⟩], []⟩ "admin" "alice" 3 5).2 =
      RouteResp.redirectIndex :=
  C8_duplicate_add_noop.1 ⟨[⟨1, "Alice", 0, 0⟩], []⟩ "admin" "alice" 3 5
    ⟨1, "Alice", 0, 0⟩ (by decide) (by decide)

/-- C6 counterexample: for the empty username, a put stores the value under
the case-folded key, yet an immediate get within the TTL returns `None`
instead of the stored value, because `avatar_get_cached` short-circuits on a
falsy username; so the put/get round trip fails for `u = ""`. -/
theorem C6_counterexample :
    dictGet (avatar_set_cached ([] : AvatarCache) 0 "" (some "http://img")) (strLower "") =
      some ⟨some "http://img", AVATAR_TTL⟩ ∧
    avatar_get_cached (avatar_set_cached ([] : AvatarCache) 0 "" (some "http://img")) 0 "" =
      none := by
  decide

/-- C6 amended: for every nonempty username, a put followed within the TTL by
a get for any username with the same lower-casing returns the stored value;
and a put always overwrites the entry for the case-folded key — leaving the
stored value with expiry `now + AVATAR_TTL` — regardless of any prior entry. -/
theorem C6_put_then_get :
    (∀ (c : AvatarCache) (now t : Nat) (u u2 : String) (v : Option String),
      u2 ≠ "" → strLower u2 = strLower u → t < now + AVATAR_TTL →
      avatar_get_cached (avatar_set_cached c now u v) t u2 = v) ∧
    (∀ (c : AvatarCache) (now : Nat) (u : String) (v : Option String),
      dictGet (avatar_set_cached c now u v) (strLower u) = some ⟨v, now + AVATAR_TTL⟩) := by
  constructor
  · intro c now t u u2 v h0 hfold ht
    unfold avatar_get_cached avatar_set_cached
    rw [if_neg h0, hfold, dictGet_dictSet_self]
    exact if_pos ht
  · intro c now u v
    unfold avatar_set_cached
    exact dictGet_dictSet_self c (strLower u) ⟨v, now + AVATAR_TTL⟩

/-- Witness for C6 amended: put "Bob", get "BOB" 30 seconds later. -/
theorem C6_put_then_get_witness :
    avatar_get_cached (avatar_set_cached ([] : AvatarCache) 0 "Bob" (some "http://img"))
      30 "BOB" = some "http://img" :=
  C6_put_then_get.1 [] 0 30 "Bob" "BOB" (some "http://img")
    (by decide) (by decide) (by decide)

/-- C7: a get at or after the entry's expiry returns the miss value `None`
(an expired entry is never returned as a hit); one sweep pass keeps exactly
the entries whose expiry has not passed; and inserting a fresh key, letting it
expire, and sweeping returns the cache to its pre-insertion size when the
other entries are unexpired. -/
theorem C7_expiry_and_sweep :
    (∀ (c : AvatarCache) (now : Nat) (u : String) (e : AvatarEntry),
      dictGet c (strLower u) = some e → e.expiry ≤ now →
      avatar_get_cached c now u = none) ∧
    (∀ (c : AvatarCache) (now : Nat) (k : String) (e : AvatarEntry),
      (k, e) ∈ avatar_sweep c now ↔ (k, e) ∈ c ∧ now < e.expiry) ∧
    (∀ (c : AvatarCache) (now t : Nat) (u : String) (v : Option String),
      dictGet c (strLower u) = none →
      (∀ p ∈ c, t < p.2.expiry) →
      now + AVATAR_TTL ≤ t →
      (avatar_sweep (avatar_set_cached c now u v) t).length = c.length) := by
  refine ⟨?_, ?_, ?_⟩
  · intro c now u e hget hexp
    unfold avatar_get_cached
    by_cases h0 : u = ""
    · rw [if_pos h0]
    · rw [if_neg h0, hget]
      exact if_neg (by omega)
  · intro c now k e
    unfold avatar_sweep
    simp [List.mem_filter]
  · intro c now t u v hnone hlive hexp
    have hfind : c.find? (fun p => p.1 == strLower u) = none :=
      Option.map_eq_none'.mp hnone
    have hnotany : ∀ p ∈ c, ¬(p.1 == strLower u) := by
      intro p hp
      exact List.find?_eq_none.mp hfind p hp
    have hany : ¬((c.any (fun p => p.1 == strLower u)) = true) := by
      intro h
      rcases List.any_eq_true.mp h with ⟨p, hp, hpk⟩
      exact hnotany p hp hpk
    unfold avatar_set_cached dictSet
    rw [if_neg hany]
    unfold avatar_sweep
    rw [List.filter_append]
    have h1 : c.filter (fun kv => decide (t < kv.2.expiry)) = c :=
      List.filter_eq_self.mpr (fun p hp => decide_eq_true (hlive p hp))
    have h2 : ([(strLower u, (⟨v, now + AVATAR_TTL⟩ : AvatarEntry))].filter
        (fun kv => decide (t < kv.2.expiry))) = [] := by
      simp only [List.filter, decide_eq_true_eq]
      rw [decide_eq_false (by omega)]
    rw [h1, h2, List.append_nil]

/-- Witness for C7: an entry exactly at its expiry is a miss, and inserting
then sweeping after the TTL restores the pre-insertion size 1. -/
theorem C7_expiry_and_sweep_witness :
    avatar_get_cached ([("bob", ⟨some "http://img", 50⟩)] : AvatarCache) 50 "Bob" = none ∧
    (avatar_sweep (avatar_set_cached ([("keep", ⟨none, 9999⟩)] : AvatarCache) 0 "Bob" none)
      3600).length = ([("keep", (⟨none, 9999⟩ : AvatarEntry))] : AvatarCache).length :=
  ⟨C7_expiry_and_sweep.1 [("bob", ⟨some "http://img", 50⟩)] 50 "Bob" ⟨some "http://img", 50⟩
      (by decide) (by decide),
   C7_expiry_and_sweep.2.2 [("keep", ⟨none, 9999⟩)] 0 3600 "Bob" none
      (by decide) (by decide) (by decide)⟩

/-- C3: evaluation of `get_roblox_avatar` at the failing input.  With a fetch
environment that always fails, the first resolution of "Bob" consults the
external endpoint once and stores the absent marker for the full TTL; but a
second resolution 10 seconds later consults the external endpoint again
(count 1, not 0): `avatar_get_cached` returns the stored `None`, which the
`cached is not None` test cannot distinguish from a miss, contradicting the
claim that the second resolution is a cache hit without a new fetch. -/
theorem C3_absent_marker_refetched :
    (get_roblox_avatar ⟨fun _ => none, fun _ => none⟩ ([] : AvatarCache) 0 "Bob").2.2 = 1 ∧
    (get_roblox_avatar ⟨fun _ => none, fun _ => none⟩ ([] : AvatarCache) 0 "Bob").2.1 =
      [("bob", ⟨none, AVATAR_TTL⟩)] ∧
    (get_roblox_avatar ⟨fun _ => none, fun _ => none⟩
      (get_roblox_avatar ⟨fun _ => none, fun _ => none⟩ ([] : AvatarCache) 0 "Bob").2.1
      10 "Bob").2.2 = 1 ∧
    ¬((get_roblox_avatar ⟨fun _ => none, fun _ => none⟩
      (get_roblox_avatar ⟨fun _ => none, fun _ => none⟩ ([] : AvatarCache) 0 "Bob").2.1
      10 "Bob").2.2 = 0) ∧
    (get_roblox_avatar ⟨fun _ => none, fun _ => none⟩
      (get_roblox_avatar ⟨fun _ => none, fun _ => none⟩ ([] : AvatarCache) 0 "Bob").2.1
      10 "Bob").1 = none := by
  decide

theorem promote_user_eq (pr : PlayerRanks) (u cur : String)
    (h : dictGet pr u = some cur) :
    promote_user pr u =
      (if cur = "" then (pr, "User has no rank assigned.")
       else if PNCO_RANKS.contains cur then
         (if list_index PNCO_RANKS cur < PNCO_RANKS.length - 1 then
            (dictSet pr u (PNCO_RANKS.getD (list_index PNCO_RANKS cur + 1) ""),
              "User promoted to " ++ PNCO_RANKS.getD (list_index PNCO_RANKS cur + 1) "")
          else (pr, "Already at highest rank."))
       else if PCO_RANKS.contains cur then
         (if list_index PCO_RANKS cur < PCO_RANKS.length - 1 then
            (dictSet pr u (PCO_RANKS.getD (list_index PCO_RANKS cur + 1) ""),
              "User promoted to " ++ PCO_RANKS.getD (list_index PCO_RANKS cur + 1) "")
          else (pr, "Already at highest rank."))
       else (pr, "Already at highest rank.")) := by
  unfold promote_user
  rw [h]

theorem demote_user_eq (pr : PlayerRanks) (u cur : String)
    (h : dictGet pr u = some cur) :
    demote_user pr u =
      (if cur = "" then (pr, "User has no rank assigned.")
       else if PNCO_RANKS.contains cur then
         (if 0 < list_index PNCO_RANKS cur then
            (dictSet pr u (PNCO_RANKS.getD (list_index PNCO_RANKS cur - 1) ""),
              "User demoted to " ++ PNCO_RANKS.getD (list_index PNCO_RANKS cur - 1) "")
          else (pr, "Already at lowest rank."))
       else if PCO_RANKS.contains cur then
         (if 0 < list_index PCO_RANKS cur then
            (dictSet pr u (PCO_RANKS.getD (list_index PCO_RANKS cur - 1) ""),
              "User demoted to " ++ PCO_RANKS.getD (list_index PCO_RANKS cur - 1) "")
          else (pr, "Already at lowest rank."))
       else (pr, "Already at lowest rank.")) := by
  unfold demote_user
  rw [h]

/-- C10: `promote_user` and `demote_user` never move a user between the PNCO
and PCO sub-ladders: from the highest PNCO rank "Police Executive Master
Sergeant" the promote is a no-op answering "Already at highest rank." (even
though the full 16-rank ladder continues with "Police Lieutenant"), from the
lowest PCO rank "Police Lieutenant" the demote is a no-op answering "Already
at lowest rank.", and for every assigned rank the user's rank after either
operation stays inside the same sub-ladder. -/
theorem C10_sub_ladder_closed :
    (∀ (pr : PlayerRanks) (u : String),
      dictGet pr u = some "Police Executive Master Sergeant" →
      (promote_user pr u).1 = pr ∧ (promote_user pr u).2 = "Already at highest rank.") ∧
    (∀ (pr : PlayerRanks) (u : String),
      dictGet pr u = some "Police Lieutenant" →
      (demote_user pr u).1 = pr ∧ (demote_user pr u).2 = "Already at lowest rank.") ∧
    (∀ (pr : PlayerRanks) (u r : String),
      dictGet pr u = some r → r ∈ PNCO_RANKS →
      ∃ r2, dictGet (promote_user pr u).1 u = some r2 ∧ r2 ∈ PNCO_RANKS) ∧
    (∀ (pr : PlayerRanks) (u r : String),
      dictGet pr u = some r → r ∈ PCO_RANKS →
      ∃ r2, dictGet (promote_user pr u).1 u = some r2 ∧ r2 ∈ PCO_RANKS) ∧
    (∀ (pr : PlayerRanks) (u r : String),
      dictGet pr u = some r → r ∈ PNCO_RANKS →
      ∃ r2, dictGet (demote_user pr u).1 u = some r2 ∧ r2 ∈ PNCO_RANKS) ∧
    (∀ (pr : PlayerRanks) (u r : String),
      dictGet pr u = some r → r ∈ PCO_RANKS →
      ∃ r2, dictGet (demote_user pr u).1 u = some r2 ∧ r2 ∈ PCO_RANKS) := by
  refine ⟨?_, ?_, ?_, ?_, ?_, ?_⟩
  · intro pr u hget
    rw [promote_user_eq pr u _ hget]
    exact ⟨rfl, rfl⟩
  · intro pr u hget
    rw [demote_user_eq pr u _ hget]
    exact ⟨rfl, rfl⟩
  · intro pr u r hget hr
    simp only [PNCO_RANKS, List.mem_cons, List.mem_singleton, List.not_mem_nil, or_false] at hr
    rcases hr with rfl | rfl | rfl | rfl | rfl | rfl | rfl <;>
      first
      | exact ⟨_, by rw [promote_user_eq pr u _ hget]; exact dictGet_dictSet_self pr u _, by decide⟩
      | exact ⟨_, by rw [promote_user_eq pr u _ hget]; exact hget, by decide⟩
  · intro pr u r hget hr
    simp only [PCO_RANKS, List.mem_cons, List.mem_singleton, List.not_mem_nil, or_false] at hr
    rcases hr with rfl | rfl | rfl | rfl | rfl | rfl | rfl | rfl | rfl <;>
      first
      | exact ⟨_, by rw [promote_user_eq pr u _ hget]; exact dictGet_dictSet_self pr u _, by decide⟩
      | exact ⟨_, by rw [promote_user_eq pr u _ hget]; exact hget, by decide⟩
  · intro pr u r hget hr
    simp only [PNCO_RANKS, List.mem_cons, List.mem_singleton, List.not_mem_nil, or_false] at hr
    rcases hr with rfl | rfl | rfl | rfl | rfl | rfl | rfl <;>
      first
      | exact ⟨_, by rw [demote_user_eq pr u _ hget]; exact dictGet_dictSet_self pr u _, by decide⟩
      | exact ⟨_, by rw [demote_user_eq pr u _ hget]; exact hget, by decide⟩
  · intro pr u r hget hr
    simp only [PCO_RANKS, List.mem_cons, List.mem_singleton, List.not_mem_nil, or_false] at hr
    rcases hr with rfl | rfl | rfl | rfl | rfl | rfl | rfl | rfl | rfl <;>
      first
      | exact ⟨_, by rw [demote_user_eq pr u _ hget]; exact dictGet_dictSet_self pr u _, by decide⟩
      | exact ⟨_, by rw [demote_user_eq pr u _ hget]; exact hget, by decide⟩

/-- Witness for C10: a user at the top PNCO rank and a user at the bottom PCO
rank. -/
theorem C10_sub_ladder_closed_witness :
    ((promote_user ([("cap", "Police Executive Master Sergeant")] : PlayerRanks) "cap").1 =
      ([("cap", "Police Executive Master Sergeant")] : PlayerRanks) ∧
     (promote_user ([("cap", "Police Executive Master Sergeant")] : PlayerRanks) "cap").2 =
      "Already at highest rank.") ∧
    ((demote_user ([("lt", "Police Lieutenant")] : PlayerRanks) "lt").1 =
      ([("lt", "Police Lieutenant")] : PlayerRanks) ∧
     (demote_user ([("lt", "Police Lieutenant")] : PlayerRanks) "lt").2 =
      "Already at lowest rank.") :=
  ⟨C10_sub_ladder_closed.1 [("cap", "Police Executive Master Sergeant")] "cap" (by decide),
   C10_sub_ladder_closed.2.1 [("lt", "Police Lieutenant")] "lt" (by decide)⟩
